import Mathlib

/-!
Shallow embedding of `src/BaseImage/proxy/proxy.go` (package `proxy`):
a session-aware reverse proxy in front of a "marketplace" backend.

Modelling conventions:
* Time is `Nat` seconds.  Go's `time.Since(lastUsed) < 30*time.Minute`
  becomes `now - lastUsed < 30*60` on `Nat`; truncated subtraction agrees
  with Go here, since a negative Go duration also satisfies `< 30min`
  and truncated subtraction yields `0 < 30*60`.
* Network effects are oracles passed in as parameters: the outcome of the
  advisory health probe, of the session-creation POST, of the reachability
  probe and of the forward POST.  Every outbound call the code issues is
  recorded in an explicit `List Call` trace, in program order.
* A JSON body decoded into Go's `map[string]interface{}` is modelled as an
  association list `List (String × JVal)`.  Go maps are unordered (and
  `json.Marshal` sorts keys), so only key lookup is observable; the map
  update `m[k] = v` is modelled as an association-list update with the
  same lookup behaviour.
* `resp.Body` is modelled as the fully received byte string; a mid-stream
  transport error of the backend connection (the `scanner.Err()` branch)
  is not representable on a pure string and is outside this model.
-/

namespace AgentProxy

/-- A decoded JSON value, as far as the proxy inspects it: the code only
type-asserts `bool` (for `stream`) and writes a string (for `model`);
all other shapes are opaque to it. -/
inductive JVal where
  | str (s : String)
  | bool (b : Bool)
  | num (n : Int)
  | other
deriving DecidableEq, Repr

/-- Go struct `MorpheusSession { SessionID string; ModelID string; LastUsed time.Time }`. -/
structure MorpheusSession where
  sessionID : String
  modelID   : String
  lastUsed  : Nat
deriving DecidableEq, Repr

/-- Outcome of `http.Get("http://marketplace:9000/healthcheck")`. -/
inductive ProbeResult where
  | transportError
  | status (code : Nat)
deriving DecidableEq, Repr

/-- Outcome of the session-creation `http.Post`:
`netError` is a transport failure; `success none` is a 200-level reply whose
body does not decode into `struct { Id string \x60json:"sessionID"\x60 }`;
`success (some id)` is a decoded reply with `Id = id` (an absent
`sessionID` field decodes to `""`). -/
inductive SessionPostResult where
  | netError
  | success (decoded : Option String)
deriving DecidableEq, Repr

/-- Outcome of the reachability `client.Get` in `forwardRequest`. -/
inductive ReachResult where
  | ok
  | err
deriving DecidableEq, Repr

/-- A backend HTTP response as seen by the proxy. -/
structure BackendResp where
  status  : Nat
  headers : List (String × String)
  body    : String
deriving DecidableEq, Repr

/-- Outcome of the forward `client.Do` in `forwardRequest`. -/
inductive ForwardPostResult where
  | netError
  | resp (r : BackendResp)
deriving DecidableEq, Repr

/-- One outbound network call issued by the proxy, in program order.
`healthProbe` records whether the failure branch logged (the probe's only
observable effect). -/
inductive Call where
  | healthProbe (failureLogged : Bool)
  | sessionCreate (modelID : String)
  | reachProbe (url : String)
  | forwardPost (url : String) (sessionID : String) (body : List (String × JVal))
deriving DecidableEq, Repr

/-- Condition `err != nil || healthResp.StatusCode != http.StatusOK`.  Go's `||`
short-circuits, so on a transport error the response is never
dereferenced (no status is read). -/
def probeFailed : ProbeResult → Bool
  | .transportError => true
  | .status code => code ≠ 200

/-- The fast-path guard of `ensureSession`:
`activeSession != nil && time.Since(activeSession.LastUsed) < 30*time.Minute`. -/
def sessionFresh (s : Option MorpheusSession) (now : Nat) : Bool :=
  match s with
  | some sess => now - sess.lastUsed < 30 * 60
  | none => false

/-- Result of `ensureSession`: `ok`/`err` mirror the Go `error` return;
`fatal` is `log.Fatal` inside `getModelID` when `MODEL_ID` is unset. -/
inductive EnsureResult where
  | ok
  | err (msg : String)
  | fatal
deriving DecidableEq, Repr

structure EnsureOut where
  result  : EnsureResult
  session : Option MorpheusSession
  calls   : List Call
deriving DecidableEq, Repr

/-- Function `ensureSession` (proxy.go:79-152).  Holds the session mutex for the
whole body; modelled sequentially.  Note the source stores `activeSession`
with the decoded id (even an empty one) *before* the validity check at
line 147. -/
def ensureSession (envModelID : String) (now : Nat) (probe : ProbeResult)
    (post : SessionPostResult) (s : Option MorpheusSession) : EnsureOut :=
  if sessionFresh s now then
    ⟨.ok, s, []⟩
  else if envModelID = "" then
    ⟨.fatal, s, []⟩
  else
    -- marshal of the fixed request body cannot fail; then the advisory
    -- probe, whose outcome is only logged, then the session POST
    let calls := [Call.healthProbe (probeFailed probe), Call.sessionCreate envModelID]
    match post with
    | .netError => ⟨.err "failed to establish session", s, calls⟩
    | .success none => ⟨.err "failed to decode session response", s, calls⟩
    | .success (some id) =>
      if id = "" then
        ⟨.err "failed to get valid session ID from response", some ⟨id, envModelID, now⟩, calls⟩
      else
        ⟨.ok, some ⟨id, envModelID, now⟩, calls⟩

/-- Go `strings.TrimSuffix`, character-level (the claims only use ASCII urls,
where Go's byte-level trim agrees). -/
def trimSuffix (s suffix : String) : String :=
  if suffix.data.isSuffixOf s.data then
    String.mk (s.data.take (s.data.length - suffix.data.length))
  else s

/-- Go map read `m[k]` on the association-list model. -/
def getKey : List (String × JVal) → String → Option JVal
  | [], _ => none
  | (a, v) :: t, k => if k = a then some v else getKey t k

/-- Go map update `m[k] = v` on the association-list model: the updated
binding is looked up first, every other key is untouched. -/
def setKey (l : List (String × JVal)) (k : String) (v : JVal) : List (String × JVal) :=
  (k, v) :: l.filter (fun p => p.1 != k)

structure ForwardOut where
  result : Except String BackendResp
  calls  : List Call
deriving Repr

/-- Function `forwardRequest` (proxy.go:203-268).  On a non-200 backend status the
source reads, logs and restores the body, leaving the response unchanged. -/
def forwardRequest (marketplaceURL : String) (reach : ReachResult)
    (fwdPost : ForwardPostResult) (s : Option MorpheusSession)
    (requestBody : List (String × JVal)) : ForwardOut :=
  if marketplaceURL = "" then
    ⟨.error "MARKETPLACE_URL environment variable is not set", []⟩
  else
    let probeURL := trimSuffix marketplaceURL "/v1/chat/completions"
    match reach with
    | .err => ⟨.error "marketplace is not accessible", [.reachProbe probeURL]⟩
    | .ok =>
      -- json.Marshal of the body and http.NewRequest cannot fail here
      match s with
      | some sess =>
        if sess.sessionID = "" then
          ⟨.error "no active session", [.reachProbe probeURL]⟩
        else
          match fwdPost with
          | .netError =>
            ⟨.error "failed to forward request",
             [.reachProbe probeURL, .forwardPost marketplaceURL sess.sessionID requestBody]⟩
          | .resp r =>
            ⟨.ok r,
             [.reachProbe probeURL, .forwardPost marketplaceURL sess.sessionID requestBody]⟩
      | none => ⟨.error "no active session", [.reachProbe probeURL]⟩

/-- What the client connection ends up carrying for a buffered (or error)
response: status code, headers, body bytes. -/
structure ClientResponse where
  status  : Nat
  headers : List (String × String)
  body    : String
deriving DecidableEq, Repr

/-- Body written by `respondWithError`: `json.NewEncoder(w).Encode(map[string]string{...})`
(the encoder appends a newline). -/
def errorBody (msg : String) : String :=
  "\x7b\"error\":\"" ++ msg ++ "\"\x7d\n"

/-- Function `respondWithError` (proxy.go:331-335). -/
def errorResponse (statusCode : Nat) (msg : String) : ClientResponse :=
  ⟨statusCode, [("Content-Type", "application/json")], errorBody msg⟩

/-- Function `handleNonStreamingRequest` (proxy.go:299-312): copy headers, status
code and body of the backend response verbatim. -/
def handleNonStreamingRequest (marketplaceURL : String) (reach : ReachResult)
    (fwdPost : ForwardPostResult) (s : Option MorpheusSession)
    (requestBody : List (String × JVal)) : ClientResponse × List Call :=
  let fo := forwardRequest marketplaceURL reach fwdPost s requestBody
  match fo.result with
  | .error _ => (errorResponse 500 "Failed to forward request", fo.calls)
  | .ok r => (⟨r.status, r.headers, r.body⟩, fo.calls)

/-- Headers set by `setStreamingHeaders` (proxy.go:315-319). -/
def streamingHeaders : List (String × String) :=
  [("Content-Type", "text/event-stream"),
   ("Cache-Control", "no-cache"),
   ("Connection", "keep-alive")]

/-- Go `bufio.ScanLines` drops one trailing carriage return per line. -/
def dropCR (cs : List Char) : List Char :=
  if cs.getLast? = some '\x0d' then cs.dropLast else cs

/-- Split a character stream at newlines, keeping a final non-terminated
partial segment. -/
def scanLinesAux : List Char → List Char → List (List Char)
  | [], acc => [acc.reverse]
  | c :: rest, acc =>
    if c = '\n' then acc.reverse :: scanLinesAux rest []
    else scanLinesAux rest (c :: acc)

/-- The sequence of tokens a `bufio.Scanner` with the default `ScanLines`
split yields on the (fully received) input: split at newlines; a final
newline terminates the last token rather than producing an empty one;
a non-terminated final partial line is still yielded; one trailing
carriage return per line is dropped. -/
def scanLines (s : String) : List String :=
  let parts := scanLinesAux s.data []
  let parts := match parts.getLast? with
    | some [] => parts.dropLast
    | _ => parts
  parts.map (fun cs => String.mk (dropCR cs))

/-- Outcome of the streaming handler on the client connection.
`stream headers chunks`: the headers are set before any data is written,
then each element of `chunks` is one `fmt.Fprintf` write immediately
followed by one `flusher.Flush()` — i.e. one flush per chunk, in order. -/
inductive StreamOut where
  | errorResp (status : Nat) (body : String)
  | stream (headers : List (String × String)) (chunks : List String)
deriving DecidableEq, Repr

/-- Function `handleStreamingRequest` (proxy.go:271-296).  `flushable` is whether
the `w.(http.Flusher)` type assertion succeeds; the source sets the
streaming headers before that check. -/
def handleStreamingRequest (marketplaceURL : String) (reach : ReachResult)
    (fwdPost : ForwardPostResult) (s : Option MorpheusSession)
    (requestBody : List (String × JVal)) (flushable : Bool) : StreamOut × List Call :=
  let fo := forwardRequest marketplaceURL reach fwdPost s requestBody
  match fo.result with
  | .error _ => (.errorResp 500 (errorBody "Failed to forward streaming request"), fo.calls)
  | .ok r =>
    if flushable then
      (.stream streamingHeaders ((scanLines r.body).map (fun line => line ++ "\n")), fo.calls)
    else
      (.errorResp 500 (errorBody "Streaming unsupported"), fo.calls)

/-- What `ProxyChatCompletion` leaves on the client connection.
`panicked` is the nil-pointer dereference of `activeSession.SessionID` at
line 188 (unreachable after a successful `ensureSession`). -/
inductive HandlerOut where
  | response (r : ClientResponse)
  | streamed (o : StreamOut)
  | fatal
  | panicked
deriving DecidableEq, Repr

structure HandlerResult where
  out     : HandlerOut
  session : Option MorpheusSession
  calls   : List Call
deriving DecidableEq, Repr

/-- Read of `requestBody["stream"].(bool)` with default `false` when the key is
absent or not a bool. -/
def streamFlag (body : List (String × JVal)) : Bool :=
  match getKey body "stream" with
  | some (.bool b) => b
  | _ => false

/-- Handler `ProxyChatCompletion` (proxy.go:155-200).  `rawBody` is `none` when the
request body is not a well-formed JSON object (the `json.Decode` at line
174 fails), otherwise the decoded object.  The body read at line 157 is
assumed to succeed (its failure is a client-transport condition outside
the claims).  Note the source calls `ensureSession` *before* decoding
the body. -/
def proxyChatCompletion (envModelID marketplaceURL : String) (now : Nat)
    (probe : ProbeResult) (post : SessionPostResult)
    (reach : ReachResult) (fwdPost : ForwardPostResult) (flushable : Bool)
    (rawBody : Option (List (String × JVal)))
    (s : Option MorpheusSession) : HandlerResult :=
  match ensureSession envModelID now probe post s with
  | ⟨.fatal, s', calls⟩ => ⟨.fatal, s', calls⟩
  | ⟨.err _, s', calls⟩ =>
    ⟨.response (errorResponse 500 "Failed to establish session"), s', calls⟩
  | ⟨.ok, s', calls⟩ =>
    match rawBody with
    | none => ⟨.response (errorResponse 400 "Invalid request body"), s', calls⟩
    | some body =>
      if envModelID = "" then
        ⟨.response (errorResponse 500 "MODEL_ID environment variable not set"), s', calls⟩
      else
        match s' with
        | none => ⟨.panicked, none, calls⟩
        | some sess =>
          let body' := setKey body "model" (.str envModelID)
          if streamFlag body' then
            let so := handleStreamingRequest marketplaceURL reach fwdPost (some sess) body' flushable
            ⟨.streamed so.1, some sess, calls ++ so.2⟩
          else
            let ns := handleNonStreamingRequest marketplaceURL reach fwdPost (some sess) body'
            ⟨.response ns.1, some sess, calls ++ ns.2⟩

/-- No reachability probe and no forward POST occurs in the trace. -/
def forwardCallFree (calls : List Call) : Bool :=
  calls.all fun c =>
    match c with
    | .reachProbe _ => false
    | .forwardPost _ _ _ => false
    | _ => true

/-- No forward POST occurs in the trace. -/
def forwardPostFree (calls : List Call) : Bool :=
  calls.all fun c =>
    match c with
    | .forwardPost _ _ _ => false
    | _ => true

/-- No session-creation POST occurs in the trace. -/
def sessionCreateFree (calls : List Call) : Bool :=
  calls.all fun c =>
    match c with
    | .sessionCreate _ => false
    | _ => true

/-- The stored session is absent or carries an empty id (the condition
`forwardRequest` re-checks at proxy.go:232). -/
def sessionInvalid : Option MorpheusSession → Bool
  | none => true
  | some sess => sess.sessionID == ""

/- Helper lemmas about the association-list model of the JSON object. -/

theorem getKey_filter_ne (l : List (String × JVal)) (k k' : String) (h : k' ≠ k) :
    getKey (l.filter (fun p => p.1 != k)) k' = getKey l k' := by
  induction l with
  | nil => rfl
  | cons p t ih =>
    obtain ⟨a, v⟩ := p
    by_cases hak : a = k
    · subst hak
      rw [List.filter_cons_of_neg (by simp), getKey, if_neg h, ih]
    · rw [List.filter_cons_of_pos (by simp [hak])]
      by_cases hka : k' = a
      · subst hka
        rw [getKey, if_pos rfl, getKey, if_pos rfl]
      · rw [getKey, if_neg hka, getKey, if_neg hka, ih]

theorem getKey_setKey_self (l : List (String × JVal)) (k : String) (v : JVal) :
    getKey (setKey l k v) k = some v := by
  simp [setKey, getKey]

theorem getKey_setKey_ne (l : List (String × JVal)) (k k' : String) (v : JVal)
    (h : k' ≠ k) : getKey (setKey l k v) k' = getKey l k' := by
  rw [setKey, getKey, if_neg h, getKey_filter_ne l k k' h]

/- Helper lemmas about the call traces. -/

theorem ensureSession_calls_forwardCallFree (envModelID : String) (now : Nat)
    (probe : ProbeResult) (post : SessionPostResult) (s : Option MorpheusSession) :
    forwardCallFree (ensureSession envModelID now probe post s).calls = true := by
  unfold ensureSession
  repeat' split
  all_goals rfl

theorem forwardCallFree_not_mem (calls : List Call) (h : forwardCallFree calls = true)
    (u sid : String) (b : List (String × JVal)) : Call.forwardPost u sid b ∉ calls := by
  intro hmem
  have hc := List.all_eq_true.mp h _ hmem
  simp at hc

theorem forwardRequest_post_body (url : String) (reach : ReachResult)
    (fwdPost : ForwardPostResult) (s : Option MorpheusSession)
    (requestBody : List (String × JVal)) (u sid : String) (b : List (String × JVal))
    (hmem : Call.forwardPost u sid b ∈ (forwardRequest url reach fwdPost s requestBody).calls) :
    b = requestBody := by
  unfold forwardRequest at hmem
  repeat' split at hmem
  all_goals simp_all

theorem handleNonStreamingRequest_calls (marketplaceURL : String) (reach : ReachResult)
    (fwdPost : ForwardPostResult) (s : Option MorpheusSession)
    (requestBody : List (String × JVal)) :
    (handleNonStreamingRequest marketplaceURL reach fwdPost s requestBody).2
      = (forwardRequest marketplaceURL reach fwdPost s requestBody).calls := by
  unfold handleNonStreamingRequest
  rcases hf : forwardRequest marketplaceURL reach fwdPost s requestBody with ⟨res, calls⟩
  cases res <;> rfl

theorem handleStreamingRequest_calls (marketplaceURL : String) (reach : ReachResult)
    (fwdPost : ForwardPostResult) (s : Option MorpheusSession)
    (requestBody : List (String × JVal)) (flushable : Bool) :
    (handleStreamingRequest marketplaceURL reach fwdPost s requestBody flushable).2
      = (forwardRequest marketplaceURL reach fwdPost s requestBody).calls := by
  unfold handleStreamingRequest
  rcases hf : forwardRequest marketplaceURL reach fwdPost s requestBody with ⟨res, calls⟩
  cases res with
  | error e => rfl
  | ok r => cases flushable <;> rfl

/-- The call trace of the handler on a well-formed body is the trace of
`ensureSession`, possibly followed by the trace of `forwardRequest` on the
augmented body. -/
theorem handler_calls_cases (envModelID marketplaceURL : String) (now : Nat)
    (probe : ProbeResult) (post : SessionPostResult) (reach : ReachResult)
    (fwdPost : ForwardPostResult) (flushable : Bool) (body : List (String × JVal))
    (s : Option MorpheusSession) :
    (proxyChatCompletion envModelID marketplaceURL now probe post reach fwdPost flushable
        (some body) s).calls
      = (ensureSession envModelID now probe post s).calls
  ∨ (proxyChatCompletion envModelID marketplaceURL now probe post reach fwdPost flushable
        (some body) s).calls
      = (ensureSession envModelID now probe post s).calls
        ++ (forwardRequest marketplaceURL reach fwdPost
              (ensureSession envModelID now probe post s).session
              (setKey body "model" (.str envModelID))).calls := by
  unfold proxyChatCompletion
  rcases he : ensureSession envModelID now probe post s with ⟨r, s', calls⟩
  cases r with
  | fatal => exact Or.inl rfl
  | err m => exact Or.inl rfl
  | ok =>
    by_cases hm : envModelID = ""
    · exact Or.inl (by simp [hm])
    · cases s' with
      | none => exact Or.inl (by simp [hm])
      | some sess =>
        by_cases hstream : streamFlag (setKey body "model" (.str envModelID)) = true
        · exact Or.inr (by simp [hm, hstream, handleStreamingRequest_calls])
        · exact Or.inr (by simp [hm, hstream, handleNonStreamingRequest_calls])

theorem handler_forwardPost_body (envModelID marketplaceURL : String) (now : Nat)
    (probe : ProbeResult) (post : SessionPostResult) (reach : ReachResult)
    (fwdPost : ForwardPostResult) (flushable : Bool) (body : List (String × JVal))
    (s : Option MorpheusSession) (u sid : String) (b : List (String × JVal))
    (hmem : Call.forwardPost u sid b ∈ (proxyChatCompletion envModelID marketplaceURL now
        probe post reach fwdPost flushable (some body) s).calls) :
    b = setKey body "model" (.str envModelID) := by
  have hfree := ensureSession_calls_forwardCallFree envModelID now probe post s
  rcases handler_calls_cases envModelID marketplaceURL now probe post reach fwdPost
      flushable body s with hc | hc
  · rw [hc] at hmem
    exact absurd hmem (forwardCallFree_not_mem _ hfree u sid b)
  · rw [hc] at hmem
    rcases List.mem_append.mp hmem with h1 | h2
    · exact absurd h1 (forwardCallFree_not_mem _ hfree u sid b)
    · exact forwardRequest_post_body _ _ _ _ _ _ _ _ h2

/-- C1: a session-creation response whose sessionID is empty makes
`ensureSession` return an error, surfaced as HTTP 500 (first two
conjuncts, as the claim states) — but the code stores the empty-id
session *before* the check, and a later `ensureSession` call 60 seconds
on takes the 30-minute fast path and returns success, reusing the stored
empty session with no new creation call (third conjunct): the stored
state does count as a reusable session, contradicting the claim's second
half and the spec's non-empty-id invariant, which the code's own
vestigial `activeSession == nil` check shows was intended. -/
theorem C1_empty_session_stored_and_reused :
    ensureSession "model-a" 1000 (.status 200) (.success (some "")) none
      = ⟨.err "failed to get valid session ID from response",
         some ⟨"", "model-a", 1000⟩, [.healthProbe false, .sessionCreate "model-a"]⟩
  ∧ (proxyChatCompletion "model-a" "http://mp" 1000 (.status 200) (.success (some ""))
        .ok .netError true (some []) none).out
      = .response (errorResponse 500 "Failed to establish session")
  ∧ ensureSession "model-a" 1060 (.status 200) (.success (some "x"))
        (some ⟨"", "model-a", 1000⟩)
      = ⟨.ok, some ⟨"", "model-a", 1000⟩, []⟩ :=
  ⟨rfl, rfl, rfl⟩

/-- C2 counterexample: with no stored session and a malformed body, the
handler does answer 400 `{"error":"Invalid request body"}` — but a
session-creation call was made (`ensureSession` runs before the body is
parsed), refuting "no call to the backend is made". -/
theorem C2_counterexample :
    (proxyChatCompletion "m" "http://mp" 0 (.status 200) (.success (some "sid"))
        .ok .netError true none none).out
      = .response (errorResponse 400 "Invalid request body")
  ∧ (proxyChatCompletion "m" "http://mp" 0 (.status 200) (.success (some "sid"))
        .ok .netError true none none).calls
      = [.healthProbe false, .sessionCreate "m"]
  ∧ sessionCreateFree (proxyChatCompletion "m" "http://mp" 0 (.status 200)
        (.success (some "sid")) .ok .netError true none none).calls = false :=
  ⟨rfl, rfl, rfl⟩

/-- C2 (amended): a malformed body never leads to a forward call (no
reachability probe, no forward POST), and whenever the preceding
`ensureSession` step succeeds the handler responds HTTP 400 with
`{"error":"Invalid request body"}`; a session-creation call may however
already have happened, since `ensureSession` runs before parsing. -/
theorem C2_malformed_body_no_forward (envModelID marketplaceURL : String) (now : Nat)
    (probe : ProbeResult) (post : SessionPostResult) (reach : ReachResult)
    (fwdPost : ForwardPostResult) (flushable : Bool) (s : Option MorpheusSession) :
    forwardCallFree (proxyChatCompletion envModelID marketplaceURL now probe post reach
        fwdPost flushable none s).calls = true
  ∧ ((ensureSession envModelID now probe post s).result = .ok →
      (proxyChatCompletion envModelID marketplaceURL now probe post reach
        fwdPost flushable none s).out
        = .response (errorResponse 400 "Invalid request body")) := by
  unfold proxyChatCompletion
  rcases he : ensureSession envModelID now probe post s with ⟨r, s', calls⟩
  have hfree := ensureSession_calls_forwardCallFree envModelID now probe post s
  rw [he] at hfree
  cases r with
  | fatal => exact ⟨hfree, fun h => EnsureResult.noConfusion h⟩
  | err m => exact ⟨hfree, fun h => EnsureResult.noConfusion h⟩
  | ok => exact ⟨hfree, fun _ => rfl⟩

/-- C2 witness: the amended statement at a concrete input where the
session-establishment step succeeds. -/
theorem C2_malformed_body_no_forward_witness :
    forwardCallFree (proxyChatCompletion "m" "http://mp" 0 (.status 200)
        (.success (some "sid")) .ok .netError true none none).calls = true
  ∧ (proxyChatCompletion "m" "http://mp" 0 (.status 200) (.success (some "sid"))
        .ok .netError true none none).out
      = .response (errorResponse 400 "Invalid request body") :=
  ⟨(C2_malformed_body_no_forward "m" "http://mp" 0 (.status 200) (.success (some "sid"))
      .ok .netError true none).1,
   (C2_malformed_body_no_forward "m" "http://mp" 0 (.status 200) (.success (some "sid"))
      .ok .netError true none).2 (by decide)⟩

/-- C3: while the stored session's lastUsed is within 30 minutes of now,
`ensureSession` returns success immediately, issues no network call, and
leaves the stored session unchanged. -/
theorem C3_fresh_session_fast_path (envModelID : String) (now : Nat) (probe : ProbeResult)
    (post : SessionPostResult) (sess : MorpheusSession)
    (h : now - sess.lastUsed < 30 * 60) :
    ensureSession envModelID now probe post (some sess) = ⟨.ok, some sess, []⟩ := by
  simp [ensureSession, sessionFresh, h]

/-- C3 witness: the fast path at a concrete session 1600 seconds old. -/
theorem C3_fresh_session_fast_path_witness :
    (1700 : Nat) - (MorpheusSession.mk "sid" "m" 100).lastUsed < 30 * 60
  ∧ ensureSession "m" 1700 .transportError (.success (some "z")) (some ⟨"sid", "m", 100⟩)
      = ⟨.ok, some ⟨"sid", "m", 100⟩, []⟩ :=
  ⟨by decide, C3_fresh_session_fast_path "m" 1700 .transportError (.success (some "z"))
     ⟨"sid", "m", 100⟩ (by decide)⟩

/-- C4: in buffered mode, whatever response the backend returns — any
status code, headers and body — is relayed to the client verbatim; the
trace is exactly the reachability probe followed by the forward POST. -/
theorem C4_buffered_verbatim_relay (marketplaceURL : String) (r : BackendResp)
    (sess : MorpheusSession) (requestBody : List (String × JVal))
    (hurl : marketplaceURL ≠ "") (hsid : sess.sessionID ≠ "") :
    handleNonStreamingRequest marketplaceURL .ok (.resp r) (some sess) requestBody
      = (⟨r.status, r.headers, r.body⟩,
         [.reachProbe (trimSuffix marketplaceURL "/v1/chat/completions"),
          .forwardPost marketplaceURL sess.sessionID requestBody]) := by
  simp [handleNonStreamingRequest, forwardRequest, hurl, hsid]

/-- C4 witness: a backend 201 with body `{"id":"abc"}` reaches the client
as a 201 with body `{"id":"abc"}` and the same headers. -/
theorem C4_buffered_verbatim_relay_witness :
    ("http://mp/v1/chat/completions" : String) ≠ ""
  ∧ ("sid" : String) ≠ ""
  ∧ handleNonStreamingRequest "http://mp/v1/chat/completions" .ok
        (.resp ⟨201, [("X-Test", "y")], "\x7b\"id\":\"abc\"\x7d"⟩)
        (some ⟨"sid", "m", 0⟩) []
      = (⟨201, [("X-Test", "y")], "\x7b\"id\":\"abc\"\x7d"⟩,
         [.reachProbe "http://mp",
          .forwardPost "http://mp/v1/chat/completions" "sid" []]) :=
  ⟨by decide, by decide,
   C4_buffered_verbatim_relay "http://mp/v1/chat/completions"
     ⟨201, [("X-Test", "y")], "\x7b\"id\":\"abc\"\x7d"⟩ ⟨"sid", "m", 0⟩ []
     (by decide) (by decide)⟩

/-- C5: every payload handed to the forward POST carries `model` equal to
the configured model id, whatever the original payload held under
`model`, and every other key maps to its original value. -/
theorem C5_model_field_overwritten (envModelID marketplaceURL : String) (now : Nat)
    (probe : ProbeResult) (post : SessionPostResult) (reach : ReachResult)
    (fwdPost : ForwardPostResult) (flushable : Bool) (body : List (String × JVal))
    (s : Option MorpheusSession) (u sid : String) (b : List (String × JVal))
    (hmem : Call.forwardPost u sid b ∈ (proxyChatCompletion envModelID marketplaceURL now
        probe post reach fwdPost flushable (some body) s).calls) :
    getKey b "model" = some (.str envModelID)
  ∧ ∀ k, k ≠ "model" → getKey b k = getKey body k := by
  have hb := handler_forwardPost_body envModelID marketplaceURL now probe post reach fwdPost
      flushable body s u sid b hmem
  subst hb
  exact ⟨getKey_setKey_self body "model" (.str envModelID),
         fun k hk => getKey_setKey_ne body "model" k (.str envModelID) hk⟩

/-- C5 witness: a concrete run whose trace contains a forward POST; its
payload has `model = "mid"` although the client sent `model = "old"`,
and `messages` is forwarded as received. -/
theorem C5_model_field_overwritten_witness :
    getKey (setKey [("messages", JVal.other), ("model", JVal.str "old"),
        ("stream", JVal.bool false)] "model" (.str "mid")) "model" = some (.str "mid")
  ∧ getKey (setKey [("messages", JVal.other), ("model", JVal.str "old"),
        ("stream", JVal.bool false)] "model" (.str "mid")) "messages"
      = getKey [("messages", JVal.other), ("model", JVal.str "old"),
        ("stream", JVal.bool false)] "messages" :=
  ⟨(C5_model_field_overwritten "mid" "http://mp" 0 (.status 200) (.success (some "x"))
      .ok (.resp ⟨200, [], "ok"⟩) false
      [("messages", JVal.other), ("model", JVal.str "old"), ("stream", JVal.bool false)]
      (some ⟨"sid", "mid", 0⟩) "http://mp" "sid" _ (by decide)).1,
   (C5_model_field_overwritten "mid" "http://mp" 0 (.status 200) (.success (some "x"))
      .ok (.resp ⟨200, [], "ok"⟩) false
      [("messages", JVal.other), ("model", JVal.str "old"), ("stream", JVal.bool false)]
      (some ⟨"sid", "mid", 0⟩) "http://mp" "sid" _ (by decide)).2 "messages" (by decide)⟩

/-- C6: on a backend stream `data: A\ndata: B\ndata: [DONE]\n` the client
receives exactly the three lines, in order, each as one write followed by
one flush, under the event-stream headers, which are set before any data
is written. -/
theorem C6_streaming_line_relay (marketplaceURL : String) (st : Nat)
    (hd : List (String × String)) (sess : MorpheusSession)
    (requestBody : List (String × JVal))
    (hurl : marketplaceURL ≠ "") (hsid : sess.sessionID ≠ "") :
    handleStreamingRequest marketplaceURL .ok
        (.resp ⟨st, hd, "data: A\ndata: B\ndata: [DONE]\n"⟩) (some sess) requestBody true
      = (.stream streamingHeaders ["data: A\n", "data: B\n", "data: [DONE]\n"],
         [.reachProbe (trimSuffix marketplaceURL "/v1/chat/completions"),
          .forwardPost marketplaceURL sess.sessionID requestBody]) := by
  simp [handleStreamingRequest, forwardRequest, hurl, hsid]
  rfl

/-- C6 witness: the streaming relay at a fully concrete input. -/
theorem C6_streaming_line_relay_witness :
    ("http://mp/v1/chat/completions" : String) ≠ ""
  ∧ ("sid" : String) ≠ ""
  ∧ handleStreamingRequest "http://mp/v1/chat/completions" .ok
        (.resp ⟨200, [], "data: A\ndata: B\ndata: [DONE]\n"⟩)
        (some ⟨"sid", "m", 0⟩) [] true
      = (.stream streamingHeaders ["data: A\n", "data: B\n", "data: [DONE]\n"],
         [.reachProbe "http://mp",
          .forwardPost "http://mp/v1/chat/completions" "sid" []]) :=
  ⟨by decide, by decide,
   C6_streaming_line_relay "http://mp/v1/chat/completions" 200 [] ⟨"sid", "m", 0⟩ []
     (by decide) (by decide)⟩

/-- C7: with `MARKETPLACE_URL` unset, `forwardRequest` fails before any
network call — empty trace, so neither the reachability probe nor the
forward POST is issued — and both relay modes surface HTTP 500. -/
theorem C7_missing_marketplace_url (reach : ReachResult) (fwdPost : ForwardPostResult)
    (s : Option MorpheusSession) (requestBody : List (String × JVal)) (flushable : Bool) :
    forwardRequest "" reach fwdPost s requestBody
      = ⟨.error "MARKETPLACE_URL environment variable is not set", []⟩
  ∧ handleNonStreamingRequest "" reach fwdPost s requestBody
      = (errorResponse 500 "Failed to forward request", [])
  ∧ handleStreamingRequest "" reach fwdPost s requestBody flushable
      = (.errorResp 500 (errorBody "Failed to forward streaming request"), []) :=
  ⟨rfl, rfl, rfl⟩

/-- C8: the health probe is advisory: the result and the stored session
after `ensureSession` are the same for every probe outcome as for a
healthy probe, and whenever the slow path runs (no fresh session, model
id configured) the session-creation call is issued — for every probe
outcome, which in particular means a failed probe alone never makes
`ensureSession` fail. -/
theorem C8_probe_advisory (envModelID : String) (now : Nat) (probe : ProbeResult)
    (post : SessionPostResult) (s : Option MorpheusSession) :
    ((ensureSession envModelID now probe post s).result
        = (ensureSession envModelID now (.status 200) post s).result
     ∧ (ensureSession envModelID now probe post s).session
        = (ensureSession envModelID now (.status 200) post s).session)
  ∧ (sessionFresh s now = false → envModelID ≠ "" →
      Call.sessionCreate envModelID ∈ (ensureSession envModelID now probe post s).calls) := by
  by_cases hf : sessionFresh s now = true
  · exact ⟨by simp [ensureSession, hf], fun hff => absurd hf (by simp [hff])⟩
  · by_cases hm : envModelID = ""
    · exact ⟨by simp [ensureSession, hf, hm], fun _ hmm => absurd hm hmm⟩
    · constructor
      · cases post with
        | netError => simp [ensureSession, hf, hm]
        | success d =>
          cases d with
          | none => simp [ensureSession, hf, hm]
          | some id => by_cases hid : id = "" <;> simp [ensureSession, hf, hm, hid]
      · intro _ _
        cases post with
        | netError => simp [ensureSession, hf, hm]
        | success d =>
          cases d with
          | none => simp [ensureSession, hf, hm]
          | some id => by_cases hid : id = "" <;> simp [ensureSession, hf, hm, hid]

/-- C8 witness: with no stored session, a transport-failing probe and a
failing creation call, the outcome equals the healthy-probe outcome and
the creation call was issued. -/
theorem C8_probe_advisory_witness :
    ((ensureSession "m" 0 .transportError .netError none).result
        = (ensureSession "m" 0 (.status 200) .netError none).result
     ∧ (ensureSession "m" 0 .transportError .netError none).session
        = (ensureSession "m" 0 (.status 200) .netError none).session)
  ∧ Call.sessionCreate "m" ∈ (ensureSession "m" 0 .transportError .netError none).calls :=
  ⟨(C8_probe_advisory "m" 0 .transportError .netError none).1,
   (C8_probe_advisory "m" 0 .transportError .netError none).2 (by decide) (by decide)⟩

/-- C10: whenever the stored session is absent or carries an empty id,
`forwardRequest` returns an error and its trace contains no forward POST
— and past the configuration check and a successful reachability probe,
the error is exactly "no active session". -/
theorem C10_forward_rechecks_session (marketplaceURL : String) (reach : ReachResult)
    (fwdPost : ForwardPostResult) (s : Option MorpheusSession)
    (requestBody : List (String × JVal)) (hs : sessionInvalid s = true) :
    (∃ e, (forwardRequest marketplaceURL reach fwdPost s requestBody).result = .error e)
  ∧ forwardPostFree (forwardRequest marketplaceURL reach fwdPost s requestBody).calls = true
  ∧ (marketplaceURL ≠ "" → reach = .ok →
      (forwardRequest marketplaceURL reach fwdPost s requestBody).result
        = .error "no active session") := by
  by_cases hu : marketplaceURL = ""
  · exact ⟨⟨"MARKETPLACE_URL environment variable is not set", by simp [forwardRequest, hu]⟩,
      by simp [forwardRequest, hu, forwardPostFree], fun hne _ => absurd hu hne⟩
  · cases reach with
    | err =>
      exact ⟨⟨"marketplace is not accessible", by simp [forwardRequest, hu]⟩,
        by simp [forwardRequest, hu, forwardPostFree], fun _ h => ReachResult.noConfusion h⟩
    | ok =>
      cases s with
      | none =>
        exact ⟨⟨"no active session", by simp [forwardRequest, hu]⟩,
          by simp [forwardRequest, hu, forwardPostFree],
          fun _ _ => by simp [forwardRequest, hu]⟩
      | some sess =>
        have hsid : sess.sessionID = "" := by simpa [sessionInvalid] using hs
        exact ⟨⟨"no active session", by simp [forwardRequest, hu, hsid]⟩,
          by simp [forwardRequest, hu, hsid, forwardPostFree],
          fun _ _ => by simp [forwardRequest, hu, hsid]⟩

/-- C10 witness: with no stored session and a reachable backend, the
forward fails with "no active session" and no forward POST is issued. -/
theorem C10_forward_rechecks_session_witness :
    sessionInvalid none = true
  ∧ forwardPostFree (forwardRequest "http://mp" .ok .netError none []).calls = true
  ∧ (forwardRequest "http://mp" .ok .netError none []).result = .error "no active session" :=
  ⟨by decide,
   (C10_forward_rechecks_session "http://mp" .ok .netError none [] (by decide)).2.1,
   (C10_forward_rechecks_session "http://mp" .ok .netError none [] (by decide)).2.2
     (by decide) rfl⟩

end AgentProxy
